import Mathlib

/-!
Shallow embedding of `src/services/pitcherReadiness/calibration-decay.py`
(Calibration Confidence Decay & Recalibration Decision Engine).

Conventions of the embedding:
* Python floats are modelled as real numbers (`ℝ`) where transcendental
  arithmetic (`np.exp`, `np.log`) occurs, and as rationals (`ℚ`) for the
  purely algebraic environmental-factor and policy layers, so that those
  layers stay decidable.
* Python dicts with a known key set become structures of `Option` fields
  (`none` = key absent); dict truthiness (`if env_snapshot:`) becomes an
  explicit `truthy` test.
* Timestamps (`datetime`) are real numbers of seconds; the difference of two
  timestamps divided by 60 is the elapsed minutes, exactly as
  `(a - b).total_seconds() / 60.0`.
* The interpolated reason strings are modelled as a tagged variant carrying
  the interpolated values (decimal formatting of the message text is
  presentation only); the literal string `'No calibration found'` becomes the
  tag `Reason.noCalibrationFound`.
* `logger` calls are side effects with no influence on any return value and
  are omitted.
-/

namespace BlazeCalibration

/-- Configuration of `CalibrationConfidenceDecay.__init__` (lines 24-39):
`initial_confidence`, `half_life_minutes`, `min_confidence` are stored as
given. -/
structure DecayConfig where
  initial_confidence : ℝ
  half_life_minutes : ℝ
  min_confidence : ℝ

/-- The constructor defaults `(0.95, 45.0, 0.5)` (lines 25-27); the manager
always builds its decay model with these defaults (line 181). -/
noncomputable def defaultConfig : DecayConfig :=
  { initial_confidence := 0.95, half_life_minutes := 45.0, min_confidence := 0.5 }

/-- Line 39: `self.decay_rate = np.log(2) / half_life_minutes`. -/
noncomputable def decay_rate (cfg : DecayConfig) : ℝ :=
  Real.log 2 / cfg.half_life_minutes

/-- `self.env_weights['vibration']` (line 43). -/
def vibrationWeight : ℚ := 2.0

/-- `self.env_weights['wind']` (line 44). -/
def windWeight : ℚ := 1.5

/-- `self.env_weights['temperature_delta']` (line 45). -/
def temperatureWeight : ℚ := 1.3

/-- `self.env_weights['humidity_delta']` (line 46). -/
def humidityWeight : ℚ := 1.2

/-- The `env_factors` dict consumed by `_adjust_decay_rate` (lines 95-127) and
built by the manager (lines 219-231): each key may be absent. -/
structure EnvFactors where
  temperature_delta_f : Option ℚ
  humidity_delta_pct : Option ℚ
  rig_vibration_idx : Option ℚ
  wind_mph : Option ℚ
deriving DecidableEq

/-- The empty `env_factors` dict `{}`. -/
def EnvFactors.empty : EnvFactors := ⟨none, none, none, none⟩

/-- Dict emptiness, for the falsiness test `if not env_factors` (line 95). -/
def EnvFactors.isEmpty (e : EnvFactors) : Bool :=
  e.temperature_delta_f.isNone && e.humidity_delta_pct.isNone &&
    e.rig_vibration_idx.isNone && e.wind_mph.isNone

/-- Vibration contribution to the multiplier (lines 101-104): applies when the
key is present and `vibration > 0.3`; the raw vibration value scales the extra
weight (no cap). -/
def vibrationTerm (e : EnvFactors) : ℚ :=
  match e.rig_vibration_idx with
  | some vibration => if 0.3 < vibration then 1 + (vibrationWeight - 1) * vibration else 1
  | none => 1

/-- Wind contribution (lines 107-111): applies when the key is present and
`wind > 15`, scaled by `min(wind / 30, 1.0)`. -/
def windTerm (e : EnvFactors) : ℚ :=
  match e.wind_mph with
  | some wind => if 15 < wind then 1 + (windWeight - 1) * min (wind / 30) 1.0 else 1
  | none => 1

/-- Temperature-change contribution (lines 114-118): applies when the key is
present and `abs(delta) > 5`, scaled by `min(abs(delta) / 15, 1.0)`. -/
def temperatureTerm (e : EnvFactors) : ℚ :=
  match e.temperature_delta_f with
  | some d => if 5 < |d| then 1 + (temperatureWeight - 1) * min (|d| / 15) 1.0 else 1
  | none => 1

/-- Humidity-change contribution (lines 121-125): applies when the key is
present and `abs(delta) > 10`, scaled by `min(abs(delta) / 30, 1.0)`. -/
def humidityTerm (e : EnvFactors) : ℚ :=
  match e.humidity_delta_pct with
  | some d => if 10 < |d| then 1 + (humidityWeight - 1) * min (|d| / 30) 1.0 else 1
  | none => 1

/-- The `multiplier` accumulated by `_adjust_decay_rate` (lines 98-125):
starts at `1.0` and is multiplied by the vibration, wind, temperature and
humidity terms in the order the code visits them. -/
def adjustMultiplier (e : EnvFactors) : ℚ :=
  1.0 * vibrationTerm e * windTerm e * temperatureTerm e * humidityTerm e

/-- `CalibrationConfidenceDecay._adjust_decay_rate` (lines 82-127): returns
`base_rate` when `env_factors` is `None` or empty (line 95), otherwise
`base_rate * multiplier` (line 127). -/
noncomputable def adjust_decay_rate (base_rate : ℝ) (env_factors : Option EnvFactors) : ℝ :=
  match env_factors with
  | none => base_rate
  | some e => if e.isEmpty then base_rate else base_rate * (adjustMultiplier e : ℝ)

/-- The undamped exponential of line 71,
`initial_confidence * exp(-rate * minutes)`, with the unadjusted base rate:
the decay curve of the model absent environmental factors. -/
noncomputable def rawConfidence (cfg : DecayConfig) (minutes_elapsed : ℝ) : ℝ :=
  cfg.initial_confidence * Real.exp (-(decay_rate cfg) * minutes_elapsed)

/-- `CalibrationConfidenceDecay.calculate_confidence` (lines 49-80):
elapsed minutes from the two timestamps (line 65, seconds divided by 60),
environment-adjusted decay rate (line 68), exponential decay (line 71) and
the floor `max(confidence, min_confidence)` (line 74). The `logger.warning`
on line 78 has no effect on the result. -/
noncomputable def calculate_confidence (cfg : DecayConfig)
    (last_calibration_ts current_ts : ℝ) (env_factors : Option EnvFactors) : ℝ :=
  let minutes_elapsed : ℝ := (current_ts - last_calibration_ts) / 60
  let effective_decay_rate : ℝ := adjust_decay_rate (decay_rate cfg) env_factors
  let confidence : ℝ := cfg.initial_confidence * Real.exp (-effective_decay_rate * minutes_elapsed)
  max confidence cfg.min_confidence

/-- The reason component of `recommend_recalibration` and of the
no-calibration default: a tagged variant carrying the values the source
interpolates into its message strings. -/
inductive Reason where
  | noCalibrationFound
  | lowConfidence (confidence : ℝ)
  | lowQA (qa_score : ℚ) (confidence : ℝ)
  | highLatency (late_data_frac : ℚ) (confidence : ℝ)
  | acceptable

/-- `CalibrationConfidenceDecay.recommend_recalibration` (lines 129-153):
three guarded rules tried in order, first hit returns `True` with its reason;
otherwise `(False, acceptable)`. -/
noncomputable def recommend_recalibration (confidence : ℝ)
    (qa_score late_data_frac : ℚ) : Bool × Reason :=
  if confidence < 0.6 then (true, Reason.lowConfidence confidence)
  else if (qa_score : ℚ) < 0.7 ∧ confidence < 0.8 then (true, Reason.lowQA qa_score confidence)
  else if (0.3 : ℚ) < late_data_frac ∧ confidence < 0.75 then
    (true, Reason.highLatency late_data_frac confidence)
  else (false, Reason.acceptable)

/-- `CalibrationConfidenceDecay.get_action` (lines 155-172): four bands on
the confidence, tested high to low with `>=`. -/
noncomputable def get_action (confidence : ℝ) : String :=
  if 0.8 ≤ confidence then "NONE"
  else if 0.7 ≤ confidence then "REBASELINE"
  else if 0.6 ≤ confidence then "FALLBACK"
  else "ALERT"

/-- An environment-snapshot dict as the manager reads it (lines 223-246):
each key the code looks up may be absent; `otherKeys` records whether the
dict holds any further keys, which only matters for its truthiness. -/
structure Snapshot where
  temperature_f : Option ℚ
  humidity_pct : Option ℚ
  wind_mph : Option ℚ
  rig_vibration_idx_0_1 : Option ℚ
  tracking_qa : Option ℚ
  late_data_frac : Option ℚ
  otherKeys : Bool
deriving DecidableEq

/-- The empty dict `{}`, the initial `last_env_snapshot` (line 184). -/
def Snapshot.emptyDict : Snapshot := ⟨none, none, none, none, none, none, false⟩

/-- Python truthiness of a snapshot dict: non-empty. -/
def Snapshot.truthy (s : Snapshot) : Bool :=
  s.temperature_f.isSome || s.humidity_pct.isSome || s.wind_mph.isSome ||
    s.rig_vibration_idx_0_1.isSome || s.tracking_qa.isSome ||
    s.late_data_frac.isSome || s.otherKeys

/-- One entry of `calibration_history` (lines 194-199). -/
structure CalEvent where
  venue_id : String
  session_id : String
  timestamp : ℝ
  confidence : ℝ

/-- The mutable state of `CalibrationManager` (lines 180-184). The decay
model is the `CalibrationConfidenceDecay()` built with its defaults. -/
structure ManagerState where
  decay_model : DecayConfig
  calibration_history : List CalEvent
  last_calibration_ts : Option ℝ
  last_env_snapshot : Snapshot

/-- `CalibrationManager.__init__` (lines 180-184). -/
noncomputable def initManager : ManagerState :=
  { decay_model := defaultConfig, calibration_history := [],
    last_calibration_ts := none, last_env_snapshot := Snapshot.emptyDict }

/-- `CalibrationManager.update_calibration` (lines 186-200): records the
current instant as the new epoch and appends it to the history (the source
reads `datetime.now()`; here the instant is the explicit `now` argument, and
`confidence` carries the parameter whose source default is `0.95`). -/
noncomputable def update_calibration (m : ManagerState) (venue_id session_id : String)
    (now : ℝ) (confidence : ℝ) : ManagerState :=
  { m with
    last_calibration_ts := some now,
    calibration_history := m.calibration_history ++
      [{ venue_id := venue_id, session_id := session_id,
         timestamp := now, confidence := confidence }] }

/-- The `env_factors` dict built on lines 219-231 from the stored previous
snapshot and a truthy new snapshot: temperature/humidity deltas only when the
stored snapshot is truthy, with dict defaults `70` and `50` for absent keys;
vibration and wind always set, with default `0`. -/
def buildEnvFactors (prior s : Snapshot) : EnvFactors :=
  { temperature_delta_f :=
      if prior.truthy then some (s.temperature_f.getD 70 - prior.temperature_f.getD 70) else none,
    humidity_delta_pct :=
      if prior.truthy then some (s.humidity_pct.getD 50 - prior.humidity_pct.getD 50) else none,
    rig_vibration_idx := some (s.rig_vibration_idx_0_1.getD 0),
    wind_mph := some (s.wind_mph.getD 0) }

/-- The dict returned by `get_current_confidence`: the early no-calibration
return (lines 209-214) carries no `minutes_since_calibration` or
`env_factors` keys, hence those fields are `Option`s. -/
structure Result where
  confidence : ℝ
  action : String
  reason : Reason
  should_recalibrate : Bool
  minutes_since_calibration : Option ℝ
  env_factors : Option EnvFactors

/-- Python `round(x, 3)` (line 252), as rounding `1000 * x` to an integer.
(The source rounds exact halves to even; no value in this development sits on
such a tie.) -/
noncomputable def round3 (x : ℝ) : ℝ := (round (1000 * x) : ℤ) / 1000

/-- The early return of lines 209-214 when no calibration was ever
recorded. -/
noncomputable def noCalibrationResult : Result :=
  { confidence := 0.5, action := "ALERT", reason := Reason.noCalibrationFound,
    should_recalibrate := true, minutes_since_calibration := none, env_factors := none }

/-- `CalibrationManager.get_current_confidence` (lines 202-261), as a function
from the state and the call arguments to the returned dict and the state after
the call. `current_ts or datetime.now()` (line 216) becomes
`current_ts.getD now` with `now` the clock reading. When a truthy snapshot is
passed, line 232 overwrites `last_env_snapshot` with it: that is the one state
change the method makes. -/
noncomputable def get_current_confidence (m : ManagerState) (current_ts : Option ℝ)
    (now : ℝ) (env_snapshot : Option Snapshot) : Result × ManagerState :=
  match m.last_calibration_ts with
  | none => (noCalibrationResult, m)
  | some t0 =>
    let cur : ℝ := current_ts.getD now
    let env_factors : EnvFactors :=
      match env_snapshot with
      | some s => if s.truthy then buildEnvFactors m.last_env_snapshot s else EnvFactors.empty
      | none => EnvFactors.empty
    let newLastEnv : Snapshot :=
      match env_snapshot with
      | some s => if s.truthy then s else m.last_env_snapshot
      | none => m.last_env_snapshot
    let confidence : ℝ := calculate_confidence m.decay_model t0 cur (some env_factors)
    let action : String := get_action confidence
    let qa_score : ℚ :=
      match env_snapshot with
      | some s => if s.truthy then s.tracking_qa.getD 0.9 else 0.9
      | none => 0.9
    let late_frac : ℚ :=
      match env_snapshot with
      | some s => if s.truthy then s.late_data_frac.getD 0.05 else 0.05
      | none => 0.05
    let recommendation : Bool × Reason := recommend_recalibration confidence qa_score late_frac
    ({ confidence := round3 confidence, action := action, reason := recommendation.2,
       should_recalibrate := recommendation.1,
       minutes_since_calibration := some ((cur - t0) / 60),
       env_factors := some env_factors },
     { m with last_env_snapshot := newLastEnv })

/-! ### Helper lemmas on the environmental multiplier -/

theorem one_le_vibrationTerm (e : EnvFactors) : 1 ≤ vibrationTerm e := by
  unfold vibrationTerm
  split
  next v hv =>
    split
    next h =>
      unfold vibrationWeight
      nlinarith
    next h => exact le_refl 1
  next _ => exact le_refl 1

theorem one_le_windTerm (e : EnvFactors) : 1 ≤ windTerm e := by
  unfold windTerm
  split
  next w hw =>
    split
    next h =>
      have h0 : (0 : ℚ) ≤ min (w / 30) 1.0 := le_min (by linarith) (by norm_num)
      unfold windWeight
      nlinarith
    next h => exact le_refl 1
  next _ => exact le_refl 1

theorem one_le_temperatureTerm (e : EnvFactors) : 1 ≤ temperatureTerm e := by
  unfold temperatureTerm
  split
  next d hd =>
    split
    next h =>
      have h0 : (0 : ℚ) ≤ min (|d| / 15) 1.0 := le_min (by positivity) (by norm_num)
      unfold temperatureWeight
      nlinarith
    next h => exact le_refl 1
  next _ => exact le_refl 1

theorem one_le_humidityTerm (e : EnvFactors) : 1 ≤ humidityTerm e := by
  unfold humidityTerm
  split
  next d hd =>
    split
    next h =>
      have h0 : (0 : ℚ) ≤ min (|d| / 30) 1.0 := le_min (by positivity) (by norm_num)
      unfold humidityWeight
      nlinarith
    next h => exact le_refl 1
  next _ => exact le_refl 1

theorem one_le_adjustMultiplier (e : EnvFactors) : 1 ≤ adjustMultiplier e := by
  have h1 := one_le_vibrationTerm e
  have h2 := one_le_windTerm e
  have h3 := one_le_temperatureTerm e
  have h4 := one_le_humidityTerm e
  have h12 : 1 ≤ vibrationTerm e * windTerm e := by nlinarith
  have h123 : 1 ≤ vibrationTerm e * windTerm e * temperatureTerm e := by nlinarith
  unfold adjustMultiplier
  nlinarith

/-! ### Claim theorems -/

/-- C6: for every combination of inputs to `calculate_confidence` — any
calibration and query timestamps (including extreme elapsed times) and any
environmental factors — the returned confidence is greater than or equal to
the configured `min_confidence`. -/
theorem C6_confidence_never_below_min (cfg : DecayConfig)
    (last_calibration_ts current_ts : ℝ) (env_factors : Option EnvFactors) :
    cfg.min_confidence ≤ calculate_confidence cfg last_calibration_ts current_ts env_factors := by
  unfold calculate_confidence
  exact le_max_right _ _

/-- C7: for every base decay rate `≥ 0` and every environmental-factors input,
the rate returned by `_adjust_decay_rate` is at least the base rate: the
environmental adjustment is a multiplicative speed-up with multiplier `≥ 1`
and never slows decay below baseline. -/
theorem C7_adjust_never_decelerates (base_rate : ℝ) (env_factors : Option EnvFactors)
    (h : 0 ≤ base_rate) : base_rate ≤ adjust_decay_rate base_rate env_factors := by
  unfold adjust_decay_rate
  cases env_factors with
  | none => exact le_refl base_rate
  | some e =>
    show base_rate ≤ if e.isEmpty = true then base_rate else base_rate * (adjustMultiplier e : ℝ)
    by_cases he : e.isEmpty = true
    · rw [if_pos he]
    · rw [if_neg he]
      have h1 : (1 : ℚ) ≤ adjustMultiplier e := one_le_adjustMultiplier e
      have h1R : (1 : ℝ) ≤ (adjustMultiplier e : ℝ) := by exact_mod_cast h1
      nlinarith

/-- Witness for C7 at a concrete input: base rate `1` and a non-empty factor
dict with strong wind. -/
theorem C7_adjust_never_decelerates_witness :
    (0 : ℝ) ≤ 1 ∧ (1 : ℝ) ≤ adjust_decay_rate 1 (some ⟨none, none, none, some 20⟩) :=
  ⟨by norm_num, C7_adjust_never_decelerates 1 (some ⟨none, none, none, some 20⟩) (by norm_num)⟩

/-- C8: on a manager in which no calibration has ever been recorded, every
`get_current_confidence` call returns the conservative default: confidence
`0.5` (which is the configured `min_confidence` of the manager's decay model),
action `ALERT`, `should_recalibrate = true`, reason `No calibration found`;
the state in particular satisfies the claim for every combination of the
optional arguments. -/
theorem C8_uninitialized_fail_closed (m : ManagerState) (current_ts : Option ℝ)
    (now : ℝ) (env_snapshot : Option Snapshot) (h : m.last_calibration_ts = none) :
    (get_current_confidence m current_ts now env_snapshot).1 = noCalibrationResult ∧
      noCalibrationResult.confidence = defaultConfig.min_confidence ∧
      noCalibrationResult.action = "ALERT" ∧
      noCalibrationResult.should_recalibrate = true ∧
      noCalibrationResult.reason = Reason.noCalibrationFound := by
  refine ⟨?_, ?_, rfl, rfl, rfl⟩
  · unfold get_current_confidence
    rw [h]
  · unfold noCalibrationResult defaultConfig
    norm_num

/-- Witness for C8: the freshly constructed manager has no calibration, and a
call with all optional arguments present returns the default. -/
theorem C8_uninitialized_fail_closed_witness :
    initManager.last_calibration_ts = none ∧
      (get_current_confidence initManager (some 100) 0
          (some ⟨some 80, some 40, some 20, some 0.5, none, none, false⟩)).1 =
        noCalibrationResult :=
  ⟨rfl, (C8_uninitialized_fail_closed initManager (some 100) 0
    (some ⟨some 80, some 40, some 20, some 0.5, none, none, false⟩) rfl).1⟩

/-- C10: an evaluate call made while no calibration has ever been recorded
leaves the manager state entirely unchanged; in particular the passed
environment snapshot is discarded, not stored, so it cannot influence the
deltas of any later evaluation. -/
theorem C10_uninitialized_no_state_change (m : ManagerState) (current_ts : Option ℝ)
    (now : ℝ) (env_snapshot : Option Snapshot) (h : m.last_calibration_ts = none) :
    (get_current_confidence m current_ts now env_snapshot).2 = m := by
  unfold get_current_confidence
  rw [h]

/-- Witness for C10: a call on the fresh manager with a rich snapshot leaves
the state (including the stored snapshot) exactly as it was. -/
theorem C10_uninitialized_no_state_change_witness :
    initManager.last_calibration_ts = none ∧
      (get_current_confidence initManager none 50
          (some ⟨some 95, some 60, some 25, some 0.9, some 0.2, some 0.6, true⟩)).2 =
        initManager :=
  ⟨rfl, C10_uninitialized_no_state_change initManager none 50
    (some ⟨some 95, some 60, some 25, some 0.9, some 0.2, some 0.6, true⟩) rfl⟩

/-! ### Evaluation lemmas for `calculate_confidence` -/

theorem defaultConfig_initial : defaultConfig.initial_confidence = 0.95 := rfl

theorem defaultConfig_half : defaultConfig.half_life_minutes = 45 := by
  norm_num [defaultConfig]

theorem defaultConfig_min : defaultConfig.min_confidence = 0.5 := rfl

/-- With no environmental factors `calculate_confidence` is the floored
exponential of the elapsed minutes. -/
theorem calculate_confidence_none (cfg : DecayConfig) (a b : ℝ) :
    calculate_confidence cfg a b none =
      max (rawConfidence cfg ((b - a) / 60)) cfg.min_confidence := rfl

/-- C2 (the code at the claimed behaviour's failing input): with the default
configuration, a query 100 minutes before the calibration instant
(`last_calibration_ts = 6000` seconds, `current_ts = 0`) yields a confidence
strictly above the initial confidence — and even above `1` — because
`minutes_elapsed` is never clamped at zero (line 65 feeds the negative value
straight into the exponential), contradicting both the claimed clamp and the
function's own documented return range `[0, 1]`. -/
theorem C2_negative_elapsed_not_clamped :
    defaultConfig.initial_confidence < calculate_confidence defaultConfig 6000 0 none ∧
      1 < calculate_confidence defaultConfig 6000 0 none := by
  rw [calculate_confidence_none, defaultConfig_min, defaultConfig_initial]
  unfold rawConfidence
  rw [defaultConfig_initial]
  unfold decay_rate
  rw [defaultConfig_half]
  have hlog := Real.log_two_gt_d9
  set y : ℝ := -(Real.log 2 / 45) * ((0 - 6000) / 60) with hy
  have hy15 : (1.5 : ℝ) < y := by
    rw [hy]
    nlinarith
  have hexp : y + 1 ≤ Real.exp y := Real.add_one_le_exp y
  have h1 : (1 : ℝ) < 0.95 * Real.exp y := by nlinarith
  constructor
  · exact lt_of_lt_of_le (by nlinarith) (le_max_left _ _)
  · exact lt_of_lt_of_le h1 (le_max_left _ _)

/-- C5 counterexample: with the default configuration and no environmental
factors, at `minutes_elapsed = half_life_minutes = 45` (timestamps 0 and 2700
seconds) the returned confidence is the floor `0.5`, not
`initial_confidence / 2 = 0.475`: the `min_confidence` floor (line 74) breaks
the claimed half-life identity for the value `calculate_confidence`
returns. -/
theorem C5_counterexample_half_life_floored :
    calculate_confidence defaultConfig 0 2700 none = 0.5 ∧
      calculate_confidence defaultConfig 0 2700 none ≠
        defaultConfig.initial_confidence / 2 := by
  have harg : -(decay_rate defaultConfig) * (((2700 : ℝ) - 0) / 60) = -Real.log 2 := by
    unfold decay_rate
    rw [defaultConfig_half]
    ring_nf
  have hraw : rawConfidence defaultConfig (((2700 : ℝ) - 0) / 60) = 0.95 * 2⁻¹ := by
    unfold rawConfidence
    rw [defaultConfig_initial, harg, Real.exp_neg, Real.exp_log two_pos]
  have hval : calculate_confidence defaultConfig 0 2700 none = 0.5 := by
    rw [calculate_confidence_none, hraw, defaultConfig_min]
    rw [max_eq_right (by norm_num)]
  refine ⟨hval, ?_⟩
  rw [hval, defaultConfig_initial]
  norm_num

/-- C5 amended: the unfloored exponential of line 71 is strictly decreasing in
the elapsed minutes and halves exactly at `half_life_minutes`; what
`calculate_confidence` returns is that exponential clamped from below at
`min_confidence`, so the claimed identities hold for the returned value only
while it stays above the floor. -/
theorem C5_amended_decay_halves_above_floor (cfg : DecayConfig)
    (hinit : 0 < cfg.initial_confidence) (hhalf : 0 < cfg.half_life_minutes) :
    (∀ t1 t2 : ℝ, 0 ≤ t1 → t1 < t2 → rawConfidence cfg t2 < rawConfidence cfg t1) ∧
      rawConfidence cfg cfg.half_life_minutes = cfg.initial_confidence / 2 ∧
      ∀ a b : ℝ, calculate_confidence cfg a b none =
        max (rawConfidence cfg ((b - a) / 60)) cfg.min_confidence := by
  have hrate : 0 < decay_rate cfg := div_pos (Real.log_pos one_lt_two) hhalf
  refine ⟨?_, ?_, fun a b => calculate_confidence_none cfg a b⟩
  · intro t1 t2 _ hlt
    unfold rawConfidence
    have harg : -(decay_rate cfg) * t2 < -(decay_rate cfg) * t1 := by nlinarith
    exact mul_lt_mul_of_pos_left (Real.exp_lt_exp.mpr harg) hinit
  · unfold rawConfidence
    have harg : -(decay_rate cfg) * cfg.half_life_minutes = -Real.log 2 := by
      unfold decay_rate
      field_simp
    rw [harg, Real.exp_neg, Real.exp_log two_pos]
    ring

/-- Witness for the amended C5 at the default configuration. -/
theorem C5_amended_witness :
    (0 : ℝ) < defaultConfig.initial_confidence ∧
      (0 : ℝ) < defaultConfig.half_life_minutes ∧
      rawConfidence defaultConfig defaultConfig.half_life_minutes =
        defaultConfig.initial_confidence / 2 :=
  ⟨by norm_num [defaultConfig], by norm_num [defaultConfig],
    (C5_amended_decay_halves_above_floor defaultConfig (by norm_num [defaultConfig])
      (by norm_num [defaultConfig])).2.1⟩

/-- C9: `recommend_recalibration` tries its rules in order with the first true
rule winning: the recommendation is positive exactly when rule 1 (confidence
below 0.6), rule 2 (QA below 0.7 corroborated by confidence below 0.8) or
rule 3 (late fraction above 0.3 corroborated by confidence below 0.75) fires;
rule 1 wins first with its own reason; and on the two scenario inputs the
policy answers `false` for `(0.85, 0.65, 0.05)` and `true` for
`(0.78, 0.65, 0.05)`. -/
theorem C9_policy_rules_in_order :
    (∀ (confidence : ℝ) (qa_score late_data_frac : ℚ),
        (recommend_recalibration confidence qa_score late_data_frac).1 = true ↔
          (confidence < 0.6 ∨ (qa_score < 0.7 ∧ confidence < 0.8) ∨
            ((0.3 : ℚ) < late_data_frac ∧ confidence < 0.75))) ∧
      (∀ (confidence : ℝ) (qa_score late_data_frac : ℚ), confidence < 0.6 →
          recommend_recalibration confidence qa_score late_data_frac =
            (true, Reason.lowConfidence confidence)) ∧
      (recommend_recalibration 0.85 0.65 0.05).1 = false ∧
      (recommend_recalibration 0.78 0.65 0.05).1 = true := by
  refine ⟨?_, ?_, ?_, ?_⟩
  · intro c q l
    unfold recommend_recalibration
    split_ifs with h1 h2 h3 <;> simp <;> push_neg at * <;> tauto
  · intro c q l h
    unfold recommend_recalibration
    rw [if_pos h]
  · norm_num [recommend_recalibration]
  · norm_num [recommend_recalibration]

/-! ### Missing-key behaviour (C3) -/

/-- C3 counterexample: the manager's prior stored snapshot holds
`temperature_f = 100`; the new snapshot lacks the `temperature_f` key (it only
carries `humidity_pct = 50`). Lines 222-225 substitute the dict default `70`
for the missing key, producing a delta of `-30`, so the "missing" factor
multiplies the decay rate by `1.3` — it does not contribute nothing, and the
assessment differs from the one with the factor wholly absent. -/
theorem C3_counterexample_missing_key_contributes :
    adjustMultiplier (buildEnvFactors ⟨some 100, none, none, none, none, none, false⟩
        ⟨none, some 50, none, none, none, none, false⟩) = 1.3 ∧
      adjustMultiplier { buildEnvFactors ⟨some 100, none, none, none, none, none, false⟩
          ⟨none, some 50, none, none, none, none, false⟩ with temperature_delta_f := none } = 1 ∧
      (1.3 : ℚ) ≠ 1 := by
  refine ⟨?_, ?_, by norm_num⟩ <;>
    norm_num [adjustMultiplier, buildEnvFactors, vibrationTerm, windTerm, temperatureTerm,
      humidityTerm, Snapshot.truthy, vibrationWeight, windWeight, temperatureWeight,
      humidityWeight]

/-- Evaluation of the wind term when the `wind_mph` key is present. -/
theorem windTerm_eq (e : EnvFactors) (w : ℚ) (h : e.wind_mph = some w) :
    windTerm e = if 15 < w then 1 + (windWeight - 1) * min (w / 30) 1.0 else 1 := by
  unfold windTerm
  rw [h]

/-- Evaluation of the vibration term when the `rig_vibration_idx` key is
present. -/
theorem vibrationTerm_eq (e : EnvFactors) (v : ℚ) (h : e.rig_vibration_idx = some v) :
    vibrationTerm e = if 0.3 < v then 1 + (vibrationWeight - 1) * v else 1 := by
  unfold vibrationTerm
  rw [h]

/-- Evaluation of the temperature term when the `temperature_delta_f` key is
present. -/
theorem temperatureTerm_eq (e : EnvFactors) (d : ℚ) (h : e.temperature_delta_f = some d) :
    temperatureTerm e = if 5 < |d| then 1 + (temperatureWeight - 1) * min (|d| / 15) 1.0 else 1 := by
  unfold temperatureTerm
  rw [h]

/-- Evaluation of the humidity term when the `humidity_delta_pct` key is
present. -/
theorem humidityTerm_eq (e : EnvFactors) (d : ℚ) (h : e.humidity_delta_pct = some d) :
    humidityTerm e = if 10 < |d| then 1 + (humidityWeight - 1) * min (|d| / 30) 1.0 else 1 := by
  unfold humidityTerm
  rw [h]

/-- C3 amended, per key, with the other keys arbitrary: a missing `wind_mph`
or `rig_vibration_idx_0_1` key contributes nothing (its dict default `0` is
below the trigger threshold), so the whole multiplier equals the one with
that factor wholly absent; a missing `temperature_f` / `humidity_pct` key is
read as the default `70` / `50`, so when the stored prior snapshot is truthy
that factor contributes nothing exactly when the prior stored value (itself
defaulted) is within the trigger threshold of the default (and always
contributes nothing when no prior snapshot is stored); no missing key ever
causes a failure. -/
theorem C3_amended_missing_keys (prior s : Snapshot) :
    (s.wind_mph = none →
      windTerm (buildEnvFactors prior s) = 1 ∧
        adjustMultiplier (buildEnvFactors prior s) =
          adjustMultiplier { buildEnvFactors prior s with wind_mph := none }) ∧
      (s.rig_vibration_idx_0_1 = none →
        vibrationTerm (buildEnvFactors prior s) = 1 ∧
          adjustMultiplier (buildEnvFactors prior s) =
            adjustMultiplier { buildEnvFactors prior s with rig_vibration_idx := none }) ∧
      (s.temperature_f = none → prior.truthy = false →
        temperatureTerm (buildEnvFactors prior s) = 1) ∧
      (s.temperature_f = none → prior.truthy = true →
        (temperatureTerm (buildEnvFactors prior s) = 1 ↔
          |(70 : ℚ) - prior.temperature_f.getD 70| ≤ 5)) ∧
      (s.humidity_pct = none → prior.truthy = false →
        humidityTerm (buildEnvFactors prior s) = 1) ∧
      (s.humidity_pct = none → prior.truthy = true →
        (humidityTerm (buildEnvFactors prior s) = 1 ↔
          |(50 : ℚ) - prior.humidity_pct.getD 50| ≤ 10)) := by
  refine ⟨?_, ?_, ?_, ?_, ?_, ?_⟩
  · intro hw
    have hwf : (buildEnvFactors prior s).wind_mph = some 0 := by
      simp [buildEnvFactors, hw]
    have h1 : windTerm (buildEnvFactors prior s) = 1 := by
      rw [windTerm_eq _ 0 hwf, if_neg (by norm_num)]
    have h2 : windTerm { buildEnvFactors prior s with wind_mph := none } = 1 := rfl
    have h3 : vibrationTerm { buildEnvFactors prior s with wind_mph := none } =
        vibrationTerm (buildEnvFactors prior s) := rfl
    have h4 : temperatureTerm { buildEnvFactors prior s with wind_mph := none } =
        temperatureTerm (buildEnvFactors prior s) := rfl
    have h5 : humidityTerm { buildEnvFactors prior s with wind_mph := none } =
        humidityTerm (buildEnvFactors prior s) := rfl
    refine ⟨h1, ?_⟩
    unfold adjustMultiplier
    rw [h1, h2, h3, h4, h5]
  · intro hr
    have hrf : (buildEnvFactors prior s).rig_vibration_idx = some 0 := by
      simp [buildEnvFactors, hr]
    have h1 : vibrationTerm (buildEnvFactors prior s) = 1 := by
      rw [vibrationTerm_eq _ 0 hrf, if_neg (by norm_num)]
    have h2 : vibrationTerm { buildEnvFactors prior s with rig_vibration_idx := none } = 1 := rfl
    have h3 : windTerm { buildEnvFactors prior s with rig_vibration_idx := none } =
        windTerm (buildEnvFactors prior s) := rfl
    have h4 : temperatureTerm { buildEnvFactors prior s with rig_vibration_idx := none } =
        temperatureTerm (buildEnvFactors prior s) := rfl
    have h5 : humidityTerm { buildEnvFactors prior s with rig_vibration_idx := none } =
        humidityTerm (buildEnvFactors prior s) := rfl
    refine ⟨h1, ?_⟩
    unfold adjustMultiplier
    rw [h1, h2, h3, h4, h5]
  · intro ht hp
    have hf : (buildEnvFactors prior s).temperature_delta_f = none := by
      simp [buildEnvFactors, hp]
    unfold temperatureTerm
    rw [hf]
  · intro ht hp
    have hf : (buildEnvFactors prior s).temperature_delta_f =
        some (70 - prior.temperature_f.getD 70) := by
      simp [buildEnvFactors, hp, ht]
    rw [temperatureTerm_eq _ _ hf]
    constructor
    · intro h1
      by_contra hgt
      push_neg at hgt
      rw [if_pos hgt] at h1
      have hmin : (1 : ℚ) / 3 < min (|70 - prior.temperature_f.getD 70| / 15) 1.0 :=
        lt_min (by linarith) (by norm_num)
      unfold temperatureWeight at h1
      nlinarith
    · intro h2
      rw [if_neg (not_lt.mpr h2)]
  · intro hh hp
    have hf : (buildEnvFactors prior s).humidity_delta_pct = none := by
      simp [buildEnvFactors, hp]
    unfold humidityTerm
    rw [hf]
  · intro hh hp
    have hf : (buildEnvFactors prior s).humidity_delta_pct =
        some (50 - prior.humidity_pct.getD 50) := by
      simp [buildEnvFactors, hp, hh]
    rw [humidityTerm_eq _ _ hf]
    constructor
    · intro h1
      by_contra hgt
      push_neg at hgt
      rw [if_pos hgt] at h1
      have hmin : (1 : ℚ) / 3 < min (|50 - prior.humidity_pct.getD 50| / 30) 1.0 :=
        lt_min (by linarith) (by norm_num)
      unfold humidityWeight at h1
      nlinarith
    · intro h2
      rw [if_neg (not_lt.mpr h2)]

/-! ### Normalization of factor contributions (C4) -/

/-- The wind contribution the spec's words describe (for comparison with the
source's `windTerm`): normalized magnitude scaling linearly with the distance
past the threshold over the span 15-30, clamped to `[0, 1]`. -/
def specWindContribution (wind : ℚ) : ℚ :=
  if 15 < wind then 1 + (windWeight - 1) * max 0 (min ((wind - 15) / (30 - 15)) 1) else 1

/-- C4 counterexample: at `wind_mph = 18` the source computes
`min(18 / 30, 1) = 0.6`, giving factor `1.3`, while the claimed
threshold-based normalization `(18 - 15) / (30 - 15) = 0.2` would give `1.1`
(so the contribution is discontinuous at the threshold, not continuous); and
at `rig_vibration_idx = 2` the multiplier is `1 + (2 - 1) * 2 = 3`, strictly
above the claimed saturation ceiling `2.0` (the vibration magnitude is never
clamped to `[0, 1]`). -/
theorem C4_counterexample_normalization :
    windTerm ⟨none, none, none, some 18⟩ = 1.3 ∧
      specWindContribution 18 = 1.1 ∧
      windTerm ⟨none, none, none, some 18⟩ ≠ specWindContribution 18 ∧
      adjustMultiplier ⟨none, none, some 2, none⟩ = 3 ∧
      vibrationWeight < 3 := by
  refine ⟨?_, ?_, ?_, ?_, ?_⟩ <;>
    norm_num [adjustMultiplier, specWindContribution, vibrationTerm, windTerm,
      temperatureTerm, humidityTerm, vibrationWeight, windWeight, temperatureWeight,
      humidityWeight]

theorem windTerm_le (e : EnvFactors) : windTerm e ≤ windWeight := by
  unfold windTerm
  split
  next w hw =>
    split
    next h =>
      have h1 : min (w / 30) 1.0 ≤ 1.0 := min_le_right _ _
      unfold windWeight
      nlinarith
    next h =>
      unfold windWeight
      norm_num
  next _ =>
    unfold windWeight
    norm_num

theorem temperatureTerm_le (e : EnvFactors) : temperatureTerm e ≤ temperatureWeight := by
  unfold temperatureTerm
  split
  next d hd =>
    split
    next h =>
      have h1 : min (|d| / 15) 1.0 ≤ 1.0 := min_le_right _ _
      unfold temperatureWeight
      nlinarith
    next h =>
      unfold temperatureWeight
      norm_num
  next _ =>
    unfold temperatureWeight
    norm_num

theorem humidityTerm_le (e : EnvFactors) : humidityTerm e ≤ humidityWeight := by
  unfold humidityTerm
  split
  next d hd =>
    split
    next h =>
      have h1 : min (|d| / 30) 1.0 ≤ 1.0 := min_le_right _ _
      unfold humidityWeight
      nlinarith
    next h =>
      unfold humidityWeight
      norm_num
  next _ =>
    unfold humidityWeight
    norm_num

theorem vibrationTerm_none (e : EnvFactors) (h : e.rig_vibration_idx = none) :
    vibrationTerm e = 1 := by
  unfold vibrationTerm
  rw [h]

/-- C4 amended: each factor present and strictly above its threshold
multiplies the rate by `1 + (weight - 1) * m`, where `m` is `min(wind/30, 1)`
for wind, `min(|Δt|/15, 1)` for temperature and `min(|Δh|/30, 1)` for
humidity — normalized from zero, hence saturating at the factor's weight but
jumping discontinuously at the threshold — while for vibration `m` is the raw
index with no clamp, so that contribution grows without bound. -/
theorem C4_amended_normalization :
    (∀ e : EnvFactors, e.rig_vibration_idx = none →
        adjustMultiplier e ≤ windWeight * temperatureWeight * humidityWeight) ∧
      (∀ v : ℚ, 0.3 < v →
        adjustMultiplier ⟨none, none, some v, none⟩ = 1 + (vibrationWeight - 1) * v) := by
  constructor
  · intro e hv
    have h1 : windTerm e * temperatureTerm e ≤ windWeight * temperatureWeight :=
      mul_le_mul (windTerm_le e) (temperatureTerm_le e)
        (le_trans zero_le_one (one_le_temperatureTerm e))
        (by unfold windWeight; norm_num)
    have h2 : windTerm e * temperatureTerm e * humidityTerm e ≤
        windWeight * temperatureWeight * humidityWeight :=
      mul_le_mul h1 (humidityTerm_le e)
        (le_trans zero_le_one (one_le_humidityTerm e))
        (by unfold windWeight temperatureWeight; norm_num)
    have hmul : adjustMultiplier e = windTerm e * temperatureTerm e * humidityTerm e := by
      unfold adjustMultiplier
      rw [vibrationTerm_none e hv]
      ring
    rw [hmul]
    exact h2
  · intro v hv
    show 1.0 * (if 0.3 < v then 1 + (vibrationWeight - 1) * v else 1) * 1 * 1 * 1 =
      1 + (vibrationWeight - 1) * v
    rw [if_pos hv]
    ring

/-! ### Idempotence of the evaluate call (C1) -/

/-- A calibrated manager whose stored snapshot is still the initial empty
dict. -/
noncomputable def managerC1 : ManagerState :=
  { decay_model := defaultConfig, calibration_history := [],
    last_calibration_ts := some 0, last_env_snapshot := Snapshot.emptyDict }

/-- The snapshot passed to both calls of the C1 counterexample. -/
def envC1 : Snapshot := ⟨some 90, none, none, none, none, none, false⟩

/-- C1 counterexample: two immediately successive `get_current_confidence`
calls with identical arguments and no intervening writes return different
results, because the first call itself stores the passed snapshot
(line 232): the first call computes no temperature/humidity deltas (the
stored snapshot was empty), the second computes them against the snapshot the
first call stored, so the returned `env_factors` differ. -/
theorem C1_counterexample_not_idempotent :
    (get_current_confidence ((get_current_confidence managerC1 (some 0) 0 (some envC1)).2)
        (some 0) 0 (some envC1)).1 ≠
      (get_current_confidence managerC1 (some 0) 0 (some envC1)).1 := by
  have hst : (get_current_confidence managerC1 (some 0) 0 (some envC1)).2 =
      { decay_model := defaultConfig, calibration_history := [],
        last_calibration_ts := some 0, last_env_snapshot := envC1 } := by
    simp [get_current_confidence, managerC1, envC1, Snapshot.truthy]
  have e1 : (get_current_confidence managerC1 (some 0) 0 (some envC1)).1.env_factors =
      some ⟨none, none, some 0, some 0⟩ := by
    simp [get_current_confidence, managerC1, envC1, Snapshot.truthy, buildEnvFactors,
      Snapshot.emptyDict]
  have e2 : (get_current_confidence ((get_current_confidence managerC1 (some 0) 0
      (some envC1)).2) (some 0) 0 (some envC1)).1.env_factors =
      some ⟨some 0, some 0, some 0, some 0⟩ := by
    rw [hst]
    simp [get_current_confidence, envC1, Snapshot.truthy, buildEnvFactors]
  intro h
  have h2 := congrArg Result.env_factors h
  rw [e1, e2] at h2
  simp at h2

/-- The state reached after one evaluate call is a fixed point: a second call
with the same arguments leaves it unchanged. -/
theorem get_current_confidence_state_idem (m : ManagerState) (current_ts : Option ℝ)
    (now : ℝ) (env_snapshot : Option Snapshot) :
    (get_current_confidence ((get_current_confidence m current_ts now env_snapshot).2)
        current_ts now env_snapshot).2 =
      (get_current_confidence m current_ts now env_snapshot).2 := by
  cases hm : m.last_calibration_ts with
  | none => simp [get_current_confidence, hm]
  | some t0 =>
    cases env_snapshot with
    | none => simp [get_current_confidence, hm]
    | some s =>
      by_cases hs : s.truthy = true
      · simp [get_current_confidence, hm, hs]
      · simp [get_current_confidence, hm, hs]

/-- C1 amended: `get_current_confidence` is not idempotent from the first
call — it stores the passed snapshot, which the counterexample exploits — but
it is from the second call on: with identical arguments and no intervening
writes, the third call returns exactly what the second returned; and a call
passing no snapshot never changes the state at all. -/
theorem C1_amended_idempotent_after_first_call (m : ManagerState) (current_ts : Option ℝ)
    (now : ℝ) (env_snapshot : Option Snapshot) :
    ((get_current_confidence ((get_current_confidence ((get_current_confidence m
          current_ts now env_snapshot).2) current_ts now env_snapshot).2)
        current_ts now env_snapshot).1 =
      (get_current_confidence ((get_current_confidence m current_ts now
          env_snapshot).2) current_ts now env_snapshot).1) ∧
      (env_snapshot = none → (get_current_confidence m current_ts now env_snapshot).2 = m) := by
  constructor
  · exact congrArg (fun st => (get_current_confidence st current_ts now env_snapshot).1)
      (get_current_confidence_state_idem m current_ts now env_snapshot)
  · intro he
    subst he
    obtain ⟨dm, ch, ts, le⟩ := m
    cases ts with
    | none => simp [get_current_confidence]
    | some t0 => simp [get_current_confidence]

end BlazeCalibration
